import Mathlib

/-!
Shallow embedding of the mesh-normalization and export pipeline of
`src/wasm/src/lib.rs` (functions `bounding_coords`,
`align_to_multiple_of_four`, `to_padded_byte_vector`,
`step_to_triangle_buf`, `step_to_gltf`).

Floating-point values (`f32` / `f64`) are modelled by the type `FP`:
an exact rational together with the IEEE-754 special values `+inf`,
`-inf` and `NaN`.  Arithmetic follows the IEEE rules for the special
values and is exact on the rationals; the development only ever
evaluates concrete instances on values where `f64` arithmetic performs
no rounding, so the model agrees with the machine arithmetic there.
Negative zero is identified with zero (no claim depends on the sign of
zero).  The `f64 -> f32` cast (`as f32` in the source) is modelled as
the identity `toF32`; every concrete value cast in this development is
exactly representable in `f32`.

STEP parsing and triangulation (`step::step_file`, the `triangulate`
crate) are external to this repository: the pipeline is embedded from
the triangulated `Mesh` (vertices with `f64` position / normal / color,
triangles of `u32` vertex indices) onward, exactly as the two exported
functions consume it.  The JSON serializer (`json::serialize::to_string`
of the `gltf` crate) is likewise external and is passed as an explicit
function parameter `serialize`, and the encoding of one `f32` into its
four little-endian bytes is passed as a parameter `enc`.
-/

namespace StepToGltf

/-- Model of an `f32`/`f64` value: an exact rational, or one of the
IEEE special values. -/
inductive FP where
  | num (q : ℚ)
  | inf
  | negInf
  | nan
deriving DecidableEq, Repr

namespace FP

/-- True exactly on the NaN value. -/
def isNan : FP → Bool
  | .nan => true
  | _ => false

/-- Comparison `a <= b` on non-NaN values (both arguments NaN-free when
used: the callers `fmin`/`fmax` handle NaN first, matching Rust's
`min`/`max` methods). -/
def fle : FP → FP → Bool
  | .nan, _ => false
  | _, .nan => false
  | .negInf, _ => true
  | _, .negInf => false
  | .num a, .num b => decide (a ≤ b)
  | .num _, .inf => true
  | .inf, .num _ => false
  | .inf, .inf => true

/-- Rust `f64::min` / `f32::min`: if one argument is NaN the other is
returned; otherwise the smaller argument. -/
def fmin (a b : FP) : FP :=
  if a.isNan then b
  else if b.isNan then a
  else if fle a b then a else b

/-- Rust `f64::max` / `f32::max`: if one argument is NaN the other is
returned; otherwise the larger argument. -/
def fmax (a b : FP) : FP :=
  if a.isNan then b
  else if b.isNan then a
  else if fle a b then b else a

/-- IEEE addition on the model. -/
def fadd : FP → FP → FP
  | .nan, _ => .nan
  | _, .nan => .nan
  | .inf, .negInf => .nan
  | .negInf, .inf => .nan
  | .inf, _ => .inf
  | _, .inf => .inf
  | .negInf, _ => .negInf
  | _, .negInf => .negInf
  | .num a, .num b => .num (a + b)

/-- IEEE negation on the model. -/
def fneg : FP → FP
  | .num a => .num (-a)
  | .inf => .negInf
  | .negInf => .inf
  | .nan => .nan

/-- IEEE subtraction: `a - b = a + (-b)` exactly. -/
def fsub (a b : FP) : FP := fadd a (fneg b)

/-- IEEE multiplication on the model (`inf * 0 = NaN`). -/
def fmul : FP → FP → FP
  | .nan, _ => .nan
  | _, .nan => .nan
  | .num a, .num b => .num (a * b)
  | .num a, .inf => if a = 0 then .nan else if 0 < a then .inf else .negInf
  | .num a, .negInf => if a = 0 then .nan else if 0 < a then .negInf else .inf
  | .inf, .num b => if b = 0 then .nan else if 0 < b then .inf else .negInf
  | .negInf, .num b => if b = 0 then .nan else if 0 < b then .negInf else .inf
  | .inf, .inf => .inf
  | .inf, .negInf => .negInf
  | .negInf, .inf => .negInf
  | .negInf, .negInf => .inf

/-- IEEE division on the model: `0/0 = NaN`, `x/0 = ±inf` for `x ≠ 0`,
`inf/inf = NaN`, finite`/inf = 0` (signed zeros identified). -/
def fdiv : FP → FP → FP
  | .nan, _ => .nan
  | _, .nan => .nan
  | .num a, .num b =>
      if b = 0 then
        if a = 0 then .nan else if 0 < a then .inf else .negInf
      else .num (a / b)
  | .num _, .inf => .num 0
  | .num _, .negInf => .num 0
  | .inf, .num b => if 0 ≤ b then .inf else .negInf
  | .negInf, .num b => if 0 ≤ b then .negInf else .inf
  | .inf, .inf => .nan
  | .inf, .negInf => .nan
  | .negInf, .inf => .nan
  | .negInf, .negInf => .nan

end FP

open FP

/-- The `f64 -> f32` cast (`*f as f32`, lines 103 and 150).  Modelled as
the identity: values are exact rationals in this model, and every value
the development casts is exactly representable in `f32`. -/
def toF32 (x : FP) : FP := x

/-- Largest finite `f32` value, `f32::MAX = (2^24 - 1) * 2^104`. -/
def f32Max : FP := .num ((2 ^ 24 - 1) * 2 ^ 104)

/-- Smallest finite `f32` value, `f32::MIN = -f32::MAX`. -/
def f32Min : FP := .num (-((2 ^ 24 - 1) * 2 ^ 104))

/-- A triple of floats, standing for both `DVec3` (`f64`) and
`[f32; 3]`. -/
structure V3 where
  x : FP
  y : FP
  z : FP
deriving DecidableEq, Repr

/-- One vertex of the triangulated input mesh (`f64` position, normal
and color), as produced by the external triangulator. -/
structure MVertex where
  pos : V3
  norm : V3
  color : V3
deriving DecidableEq, Repr

/-- One triangle: three `u32` indices into the vertex list. -/
structure Triangle where
  a : Nat
  b : Nat
  c : Nat
deriving DecidableEq, Repr

/-- The triangulated input mesh consumed by both export functions. -/
structure Mesh where
  verts : List MVertex
  triangles : List Triangle
deriving DecidableEq, Repr

/-- Running state of the bounding loop (lines 78-88 / 116-126): the six
mutable variables. -/
structure Bounds where
  xmin : FP
  xmax : FP
  ymin : FP
  ymax : FP
  zmin : FP
  zmax : FP
deriving DecidableEq, Repr

/-- Initial bounds (lines 78-80): `(INFINITY, -INFINITY)` per axis. -/
def initBounds : Bounds :=
  ⟨.inf, .negInf, .inf, .negInf, .inf, .negInf⟩

/-- One iteration of the bounding loop (lines 81-88).  The source reads
`zmin = ymin.min(pos.z); zmax = ymax.max(pos.z);` (lines 86-87), using
the already-updated `ymin`/`ymax` of this iteration and discarding the
previous `zmin`/`zmax`; the embedding reproduces this verbatim. -/
def boundsStep (bnd : Bounds) (pos : V3) : Bounds :=
  let xmin := fmin bnd.xmin pos.x
  let xmax := fmax bnd.xmax pos.x
  let ymin := fmin bnd.ymin pos.y
  let ymax := fmax bnd.ymax pos.y
  let zmin := fmin ymin pos.z
  let zmax := fmax ymax pos.z
  ⟨xmin, xmax, ymin, ymax, zmin, zmax⟩

/-- The whole bounding loop over the mesh vertices. -/
def computeBounds (verts : List MVertex) : Bounds :=
  verts.foldl (fun bnd v => boundsStep bnd v.pos) initBounds

/-- Line 89 / 127: `scale = (xmax - xmin).max(ymax - ymin).max(zmax - zmin)`. -/
def scaleOf (bnd : Bounds) : FP :=
  fmax (fmax (fsub bnd.xmax bnd.xmin) (fsub bnd.ymax bnd.ymin))
    (fsub bnd.zmax bnd.zmin)

/-- Lines 90-92 / 128-130: centers `(max + min) / 2.0` per axis. -/
def centerOf (bnd : Bounds) : V3 :=
  ⟨fdiv (fadd bnd.xmax bnd.xmin) (.num 2),
   fdiv (fadd bnd.ymax bnd.ymin) (.num 2),
   fdiv (fadd bnd.zmax bnd.zmin) (.num 2)⟩

/-- Lines 94-96 / 132-134: `pos = (pos - c) / scale * 200.0` per axis. -/
def normalizePos (c : V3) (scale : FP) (p : V3) : V3 :=
  ⟨fmul (fdiv (fsub p.x c.x) scale) (.num 200),
   fmul (fdiv (fsub p.y c.y) scale) (.num 200),
   fmul (fdiv (fsub p.z c.z) scale) (.num 200)⟩

/-- The in-place normalization loop (lines 78-97 / 116-135): bounds,
scale, center, then rewrite every position; normals and colors are not
touched. -/
def normalizeVerts (verts : List MVertex) : List MVertex :=
  let bnd := computeBounds verts
  let scale := scaleOf bnd
  let c := centerOf bnd
  verts.map (fun v => { v with pos := normalizePos c scale v.pos })

/-- The nine floats of one vertex in the raw export's field order
(line 102: `v.pos.iter().chain(&v.norm).chain(&v.color)`), each cast to
`f32` — Order B: position, normal, color. -/
def vertFloatsB (v : MVertex) : List FP :=
  [toF32 v.pos.x, toF32 v.pos.y, toF32 v.pos.z,
   toF32 v.norm.x, toF32 v.norm.y, toF32 v.norm.z,
   toF32 v.color.x, toF32 v.color.y, toF32 v.color.z]

/-- The nine floats of one vertex in the GLB export's field order
(line 149: `v.pos.iter().chain(&v.color).chain(&v.norm)`), each cast to
`f32` — Order A: position, color, normal. -/
def vertFloatsA (v : MVertex) : List FP :=
  [toF32 v.pos.x, toF32 v.pos.y, toF32 v.pos.z,
   toF32 v.color.x, toF32 v.color.y, toF32 v.color.z,
   toF32 v.norm.x, toF32 v.norm.y, toF32 v.norm.z]

/-- The corner stream of lines 99-104 / 146-151: for every triangle, in
order, index the vertex list with its three corners
(`&mesh.verts[*p as usize]`, a panic — hence `none` — when out of
range) and emit the floats of each corner vertex under the given field
order. -/
def corners (order : MVertex → List FP) (vs : List MVertex) :
    List Triangle → Option (List FP)
  | [] => some []
  | t :: ts =>
    match vs[t.a]?, vs[t.b]?, vs[t.c]?, corners order vs ts with
    | some va, some vb, some vc, some rest =>
        some (order va ++ order vb ++ order vc ++ rest)
    | _, _, _, _ => none

/-- Lines 99-104, `step_to_triangle_buf` after triangulation: normalize,
then flatten the Order-B floats of every triangle corner. -/
def step_to_triangle_buf (m : Mesh) : Option (List FP) :=
  corners vertFloatsB (normalizeVerts m.verts) m.triangles

/-- Lines 146-151, the corner stream of `step_to_gltf`: same traversal
as the raw export but with Order-A floats per corner. -/
def collectTrisA (m : Mesh) : Option (List FP) :=
  corners vertFloatsA (normalizeVerts m.verts) m.triangles

/-- The packed `f32` record of lines 25-31 (`#[repr(C)] struct Vertex`),
fields in declaration (and hence byte) order: position, color, normal. -/
structure Vertex where
  position : V3
  color : V3
  normal : V3
deriving DecidableEq, Repr

/-- Lines 155-165: regroup the flat float stream into `Vertex` records,
nine floats at a time (`for i in (0..tris.len()).step_by(9)`).  The
stream always holds nine floats per corner, so the length is a multiple
of nine and no truncated tail ever occurs. -/
def verticesFromFloats : List FP → List Vertex
  | p0 :: p1 :: p2 :: c0 :: c1 :: c2 :: n0 :: n1 :: n2 :: rest =>
      ⟨⟨p0, p1, p2⟩, ⟨c0, c1, c2⟩, ⟨n0, n1, n2⟩⟩ :: verticesFromFloats rest
  | _ => []

/-- Loop body of `bounding_coords` (lines 38-44): update each axis with
Rust `f32::min` / `f32::max` against the point's position. -/
def bcStep (mm : V3 × V3) (point : Vertex) : V3 × V3 :=
  let p := point.position
  (⟨fmin mm.1.x p.x, fmin mm.1.y p.y, fmin mm.1.z p.z⟩,
   ⟨fmax mm.2.x p.x, fmax mm.2.y p.y, fmax mm.2.z p.z⟩)

/-- Lines 34-46, `bounding_coords`: componentwise min/max over the
positions of the packed records, folded with Rust `f32::min`/`f32::max`
from the `f32::MAX`/`f32::MIN` sentinels. -/
def bounding_coords (points : List Vertex) : V3 × V3 :=
  points.foldl bcStep (⟨f32Max, f32Max, f32Max⟩, ⟨f32Min, f32Min, f32Min⟩)

/-- Target of a glTF buffer view (`json::buffer::Target`). -/
inductive BufTarget where
  | arrayBuffer
  | elementArrayBuffer
deriving DecidableEq, Repr

/-- glTF JSON `Buffer` (the fields the source sets). -/
structure Buffer where
  byteLength : Nat
  uri : Option String
deriving DecidableEq, Repr

/-- glTF JSON `BufferView` (the fields the source sets). -/
structure BufferView where
  buffer : Nat
  byteLength : Nat
  byteOffset : Option Nat
  byteStride : Option Nat
  target : Option BufTarget
deriving DecidableEq, Repr

/-- glTF accessor component type (`json::accessor::ComponentType`). -/
inductive ComponentType where
  | i8
  | u8
  | i16
  | u16
  | u32
  | f32
deriving DecidableEq, Repr

/-- glTF accessor element type (`json::accessor::Type`). -/
inductive AccType where
  | scalar
  | vec2
  | vec3
  | vec4
  | mat2
  | mat3
  | mat4
deriving DecidableEq, Repr

/-- glTF JSON `Accessor` (the fields the source sets; `min`/`max` are
JSON arrays of floats). -/
structure Accessor where
  bufferView : Option Nat
  byteOffset : Option Nat
  count : Nat
  componentType : ComponentType
  type_ : AccType
  min : Option (List FP)
  max : Option (List FP)
  normalized : Bool
deriving DecidableEq, Repr

/-- glTF attribute semantic (`json::mesh::Semantic`). -/
inductive Semantic where
  | positions
  | normals
  | colors (set : Nat)
deriving DecidableEq, Repr

/-- glTF primitive mode (`json::mesh::Mode`). -/
inductive PrimitiveMode where
  | points
  | lines
  | lineLoop
  | lineStrip
  | triangles
  | triangleStrip
  | triangleFan
deriving DecidableEq, Repr

/-- glTF JSON `Primitive`.  The attribute map is kept in insertion
order; the source stores it in a `BTreeMap`, whose ordering affects only
the serialized JSON text, which is external to this embedding. -/
structure Primitive where
  attributes : List (Semantic × Nat)
  indices : Option Nat
  material : Option Nat
  mode : PrimitiveMode
deriving DecidableEq, Repr

/-- glTF JSON `Mesh` (named `JsonMesh` to keep it apart from the input
`Mesh`). -/
structure JsonMesh where
  primitives : List Primitive
deriving DecidableEq, Repr

/-- glTF JSON `Node` (the only field the source sets). -/
structure Node where
  mesh : Option Nat
deriving DecidableEq, Repr

/-- glTF JSON `Scene`. -/
structure Scene where
  nodes : List Nat
deriving DecidableEq, Repr

/-- glTF JSON `Root`: the collections the source pushes into. -/
structure Root where
  accessors : List Accessor
  buffers : List Buffer
  bufferViews : List BufferView
  meshes : List JsonMesh
  nodes : List Node
  scenes : List Scene
deriving DecidableEq, Repr

/-- Empty `json::Root::default()`. -/
def Root.empty : Root := ⟨[], [], [], [], [], []⟩

/-- Model of `root.push` on the buffer collection: append and return the
index of the new element. -/
def Root.pushBuffer (r : Root) (b : Buffer) : Root × Nat :=
  ({ r with buffers := r.buffers ++ [b] }, r.buffers.length)

/-- Model of `root.push` on the buffer-view collection. -/
def Root.pushBufferView (r : Root) (bv : BufferView) : Root × Nat :=
  ({ r with bufferViews := r.bufferViews ++ [bv] }, r.bufferViews.length)

/-- Model of `root.push` on the accessor collection. -/
def Root.pushAccessor (r : Root) (a : Accessor) : Root × Nat :=
  ({ r with accessors := r.accessors ++ [a] }, r.accessors.length)

/-- Model of `root.push` on the mesh collection. -/
def Root.pushMesh (r : Root) (jm : JsonMesh) : Root × Nat :=
  ({ r with meshes := r.meshes ++ [jm] }, r.meshes.length)

/-- Model of `root.push` on the node collection. -/
def Root.pushNode (r : Root) (n : Node) : Root × Nat :=
  ({ r with nodes := r.nodes ++ [n] }, r.nodes.length)

/-- Model of `root.push` on the scene collection. -/
def Root.pushScene (r : Root) (s : Scene) : Root × Nat :=
  ({ r with scenes := r.scenes ++ [s] }, r.scenes.length)

/-- Size in bytes of one packed `Vertex` record:
`mem::size_of::<Vertex>() = 9 * 4 = 36`. -/
def vertexSize : Nat := 36

/-- Lines 188-291: build the glTF JSON root — one buffer, one buffer
view (stride 36), three accessors (POSITION with min/max at offset 0,
COLOR_0 at offset 12, NORMAL at offset 24), one mesh with one triangle
primitive and no indices, one node, one scene. -/
def buildRoot (triangle_vertices : List Vertex) (mn mx : V3) : Root :=
  let root := Root.empty
  let buffer_length := triangle_vertices.length * vertexSize
  let (root, buffer) := root.pushBuffer ⟨buffer_length, none⟩
  let (root, buffer_view) :=
    root.pushBufferView ⟨buffer, buffer_length, none, some vertexSize, some .arrayBuffer⟩
  let (root, positions) :=
    root.pushAccessor ⟨some buffer_view, some 0, triangle_vertices.length, .f32, .vec3,
      some [mn.x, mn.y, mn.z], some [mx.x, mx.y, mx.z], false⟩
  let (root, colors) :=
    root.pushAccessor ⟨some buffer_view, some 12, triangle_vertices.length, .f32, .vec3,
      none, none, false⟩
  let (root, normals) :=
    root.pushAccessor ⟨some buffer_view, some 24, triangle_vertices.length, .f32, .vec3,
      none, none, false⟩
  let primitive : Primitive :=
    ⟨[(.positions, positions), (.colors 0, colors), (.normals, normals)], none, none, .triangles⟩
  let (root, jmesh) := root.pushMesh ⟨[primitive]⟩
  let (root, node) := root.pushNode ⟨some jmesh⟩
  let (root, _scene) := root.pushScene ⟨[node]⟩
  root

/-- Lines 48-50, `align_to_multiple_of_four`: `(n + 3) & !3` on `usize`,
i.e. rounding up to the next multiple of four (the bitmask clears the
two low bits, which is `4 * ((n + 3) / 4)` for any value reachable
here). -/
def align_to_multiple_of_four (n : Nat) : Nat := ((n + 3) / 4) * 4

/-- The nine floats of a packed record in the byte order of the
`#[repr(C)]` struct (position, color, normal). -/
def vertexFloats (v : Vertex) : List FP :=
  [v.position.x, v.position.y, v.position.z,
   v.color.x, v.color.y, v.color.z,
   v.normal.x, v.normal.y, v.normal.z]

/-- Bytes of one packed record under the `f32` little-endian byte
encoding `enc` (`bytemuck::cast_slice` on one `Vertex`). -/
def vertexBytes (enc : FP → List UInt8) (v : Vertex) : List UInt8 :=
  ((vertexFloats v).map enc).flatten

/-- Lines 52-62, `to_padded_byte_vector`: the raw bytes of the records
(`bytemuck::cast_slice`), zero-extended until the length is a multiple
of four (the source's `while new_vec.len() % 4 != 0` push loop). -/
def to_padded_byte_vector (enc : FP → List UInt8) (data : List Vertex) : List UInt8 :=
  let bytes := (data.map (vertexBytes enc)).flatten
  bytes ++ List.replicate ((4 - bytes.length % 4) % 4) 0

/-- Little-endian bytes of a 32-bit unsigned value (wrapping above
`2 ^ 32`, as a Rust `as u32` store would). -/
def u32le (n : Nat) : List UInt8 :=
  [UInt8.ofNat n, UInt8.ofNat (n >>> 8), UInt8.ofNat (n >>> 16), UInt8.ofNat (n >>> 24)]

/-- Modelled from the spec: the GLB emitter (`gltf::binary::Glb::to_writer`,
code of the external `gltf` crate, not under `src/`).  Spec section 4.4,
items 3-5: a 12-byte header (`"glTF"`, version 2, `totalLength = 12 + 8 +
paddedJsonLen + 8 + paddedBinLen`), then the JSON chunk header and the
JSON text padded with trailing ASCII spaces (0x20) to a multiple of
four, then the BIN chunk header and the payload padded with zero bytes
to a multiple of four. -/
def glbWrite (jsonBytes bin : List UInt8) : List UInt8 :=
  let pj := align_to_multiple_of_four jsonBytes.length
  let pb := align_to_multiple_of_four bin.length
  let total := 12 + 8 + pj + 8 + pb
  [0x67, 0x6C, 0x54, 0x46] ++ u32le 2 ++ u32le total ++
  u32le pj ++ [0x4A, 0x53, 0x4F, 0x4E] ++
  jsonBytes ++ List.replicate (pj - jsonBytes.length) 0x20 ++
  u32le pb ++ [0x42, 0x49, 0x4E, 0x00] ++
  bin ++ List.replicate (pb - bin.length) 0x00

/-- Largest unsigned 32-bit value: the GLB size limit. -/
def u32Max : Nat := 2 ^ 32 - 1

/-- The one failure `step_to_gltf` can report besides an out-of-range
triangle index: the `expect("file size exceeds binary glTF limit")`
panic at lines 305-307 when `json_offset + buffer_length` does not fit
in a `u32`. -/
inductive ExportError where
  | sizeLimit
deriving DecidableEq, Repr

/-- The packed record list of `step_to_gltf` (lines 146-165): Order-A
corner floats regrouped into `Vertex` records. -/
def meshVerticesA (m : Mesh) : Option (List Vertex) :=
  (collectTrisA m).map verticesFromFloats

/-- Lines 108-323, `step_to_gltf` after triangulation: normalize,
collect the Order-A records, compute bounds, build the JSON root,
serialize it (`serialize` stands for the external
`json::serialize::to_string`), check the `u32` size limit on
`json_offset + buffer_length`, and emit the GLB container.  `none`
models the out-of-range-index panic; `Except.error` the size-limit
panic — in both cases no output bytes are produced. -/
def step_to_gltf (serialize : Root → List UInt8) (enc : FP → List UInt8)
    (m : Mesh) : Option (Except ExportError (List UInt8)) :=
  match meshVerticesA m with
  | none => none
  | some triangle_vertices =>
    let mm := bounding_coords triangle_vertices
    let root := buildRoot triangle_vertices mm.1 mm.2
    let buffer_length := triangle_vertices.length * vertexSize
    let json_string := serialize root
    let json_offset := align_to_multiple_of_four json_string.length
    if json_offset + buffer_length > u32Max then some (.error .sizeLimit)
    else some (.ok (glbWrite json_string (to_padded_byte_vector enc triangle_vertices)))

/-- True when no component of the triple is NaN. -/
def V3.nanFree (v : V3) : Bool :=
  !v.x.isNan && !v.y.isNan && !v.z.isNan

/-- The raw-export (Order B) float slots of a packed record: position,
normal, color — the record itself stores position, color, normal. -/
def recordFloatsB (v : Vertex) : List FP :=
  [v.position.x, v.position.y, v.position.z,
   v.normal.x, v.normal.y, v.normal.z,
   v.color.x, v.color.y, v.color.z]

/-- Vertices of the spec's test scenario: one triangle with positions
`(0,0,0), (1,0,0), (0,1,0)`, normals `(0,0,1)`, colors `(1,0,0)`. -/
def triVerts : List MVertex :=
  [⟨⟨.num 0, .num 0, .num 0⟩, ⟨.num 0, .num 0, .num 1⟩, ⟨.num 1, .num 0, .num 0⟩⟩,
   ⟨⟨.num 1, .num 0, .num 0⟩, ⟨.num 0, .num 0, .num 1⟩, ⟨.num 1, .num 0, .num 0⟩⟩,
   ⟨⟨.num 0, .num 1, .num 0⟩, ⟨.num 0, .num 0, .num 1⟩, ⟨.num 1, .num 0, .num 0⟩⟩]

/-- The spec's test scenario mesh: the triangle over `triVerts`. -/
def triMesh : Mesh := ⟨triVerts, [⟨0, 1, 2⟩]⟩

/-- A degenerate mesh: a single vertex at the origin (normal `(0,0,1)`,
color `(1,0,0)`) referenced by one triangle — bounding-box scale 0. -/
def singlePointMesh : Mesh :=
  ⟨[⟨⟨.num 0, .num 0, .num 0⟩, ⟨.num 0, .num 0, .num 1⟩, ⟨.num 1, .num 0, .num 0⟩⟩],
   [⟨0, 0, 0⟩]⟩

/-- A mesh with no vertices and no triangles. -/
def emptyMesh : Mesh := ⟨[], []⟩

/-- A mesh with vertices but an empty triangle list. -/
def trisEmptyMesh : Mesh := ⟨triVerts, []⟩

/-- A packed record whose position has a NaN x component. -/
def nanRecord : Vertex :=
  ⟨⟨.nan, .num 1, .num 2⟩, ⟨.num 0, .num 0, .num 0⟩, ⟨.num 0, .num 0, .num 0⟩⟩

/-- A concrete 4-byte-per-float encoding, used to instantiate the
abstract `f32` byte encoding in witnesses. -/
def enc0 : FP → List UInt8 := fun _ => [0, 0, 0, 0]

/-- A concrete trivial JSON serializer, used to instantiate the
abstract serializer in witnesses. -/
def serialize0 : Root → List UInt8 := fun _ => []

/-- A serializer whose output length is `2^32 - 28` bytes: large enough
that the GLB total length (28 header/chunk-header bytes more) exceeds
the `u32` range while the source's size check still passes. -/
def serializeBig : Root → List UInt8 := fun _ => List.replicate (2 ^ 32 - 28) 32

/-- C1: the claim says a zero-scale mesh is detected and reported as a
`DegenerateMeshError` before dividing, and no NaN/Inf is output.  The
code has no such check: on the single-point mesh the computed scale is
0, the division `(p - c) / scale` is performed anyway, and both corner
streams return NaN position components — there is no error value at
all. -/
theorem c1_zero_scale_divides_to_nan :
    scaleOf (computeBounds singlePointMesh.verts) = FP.num 0 ∧
    step_to_triangle_buf singlePointMesh =
      some (List.flatten (List.replicate 3
        [FP.nan, FP.nan, FP.nan, FP.num 0, FP.num 0, FP.num 1,
         FP.num 1, FP.num 0, FP.num 0])) ∧
    collectTrisA singlePointMesh =
      some (List.flatten (List.replicate 3
        [FP.nan, FP.nan, FP.nan, FP.num 1, FP.num 0, FP.num 0,
         FP.num 0, FP.num 0, FP.num 1])) := by
  norm_num [singlePointMesh, triMesh, triVerts, scaleOf, centerOf, computeBounds,
    boundsStep, initBounds, FP.fmin, FP.fmax, FP.fle, FP.isNan, FP.fadd, FP.fneg, FP.fsub,
    FP.fmul, FP.fdiv, normalizeVerts, normalizePos, step_to_triangle_buf, collectTrisA,
    corners, vertFloatsB, vertFloatsA, toF32, meshVerticesA, verticesFromFloats,
    bounding_coords, bcStep, f32Max, f32Min, buildRoot, Root.empty, Root.pushBuffer,
    Root.pushBufferView, Root.pushAccessor, Root.pushMesh, Root.pushNode, Root.pushScene,
    vertexSize, List.replicate, List.flatten]

/-- C2: the claim says the bounding box is computed componentwise and
the normalized mesh is centered at the origin.  On the scenario
triangle every raw z coordinate is 0, yet the code's bounding loop
(lines 86-87: `zmin = ymin.min(pos.z); zmax = ymax.max(pos.z)`) yields
`zmax = 1`, hence center `(1/2, 1/2, 1/2)` and normalized z positions
all equal to -100: the normalized bounding box is not centered at the
origin on the z axis. -/
theorem c2_z_bounds_not_componentwise :
    (triVerts.map (fun v => v.pos.z)) = [FP.num 0, FP.num 0, FP.num 0] ∧
    computeBounds triVerts =
      ⟨FP.num 0, FP.num 1, FP.num 0, FP.num 1, FP.num 0, FP.num 1⟩ ∧
    centerOf (computeBounds triVerts) =
      ⟨FP.num (1 / 2), FP.num (1 / 2), FP.num (1 / 2)⟩ ∧
    scaleOf (computeBounds triVerts) = FP.num 1 ∧
    normalizeVerts triVerts =
      [⟨⟨FP.num (-100), FP.num (-100), FP.num (-100)⟩,
        ⟨FP.num 0, FP.num 0, FP.num 1⟩, ⟨FP.num 1, FP.num 0, FP.num 0⟩⟩,
       ⟨⟨FP.num 100, FP.num (-100), FP.num (-100)⟩,
        ⟨FP.num 0, FP.num 0, FP.num 1⟩, ⟨FP.num 1, FP.num 0, FP.num 0⟩⟩,
       ⟨⟨FP.num (-100), FP.num 100, FP.num (-100)⟩,
        ⟨FP.num 0, FP.num 0, FP.num 1⟩, ⟨FP.num 1, FP.num 0, FP.num 0⟩⟩] := by
  norm_num [singlePointMesh, triMesh, triVerts, scaleOf, centerOf, computeBounds,
    boundsStep, initBounds, FP.fmin, FP.fmax, FP.fle, FP.isNan, FP.fadd, FP.fneg, FP.fsub,
    FP.fmul, FP.fdiv, normalizeVerts, normalizePos, step_to_triangle_buf, collectTrisA,
    corners, vertFloatsB, vertFloatsA, toF32, meshVerticesA, verticesFromFloats,
    bounding_coords, bcStep, f32Max, f32Min, buildRoot, Root.empty, Root.pushBuffer,
    Root.pushBufferView, Root.pushAccessor, Root.pushMesh, Root.pushNode, Root.pushScene,
    vertexSize, List.replicate, List.flatten]

/-- C3: on the spec's scenario triangle the raw export does return
exactly 27 floats with scale 1, but the z value of every normalized
position is -100 rather than the claimed 0 (consequence of the
lines 86-87 bound bug), so the normalized positions and the GLB
POSITION accessor min/max differ from the claim: min is
`[-100, -100, -100]` and max is `[100, 100, -100]`, not
`[-100, -100, 0]` / `[100, 100, 0]`. -/
theorem c3_scenario_z_is_minus_100 :
    step_to_triangle_buf triMesh =
      some [FP.num (-100), FP.num (-100), FP.num (-100),
            FP.num 0, FP.num 0, FP.num 1, FP.num 1, FP.num 0, FP.num 0,
            FP.num 100, FP.num (-100), FP.num (-100),
            FP.num 0, FP.num 0, FP.num 1, FP.num 1, FP.num 0, FP.num 0,
            FP.num (-100), FP.num 100, FP.num (-100),
            FP.num 0, FP.num 0, FP.num 1, FP.num 1, FP.num 0, FP.num 0] ∧
    (step_to_triangle_buf triMesh).map List.length = some 27 ∧
    (meshVerticesA triMesh).map (fun tv => (tv.length, bounding_coords tv)) =
      some (3, ⟨FP.num (-100), FP.num (-100), FP.num (-100)⟩,
               ⟨FP.num 100, FP.num 100, FP.num (-100)⟩) ∧
    (meshVerticesA triMesh).map (fun tv =>
        (buildRoot tv (bounding_coords tv).1 (bounding_coords tv).2).accessors.map
          (fun a => (a.count, a.min, a.max))) =
      some [(3, some [FP.num (-100), FP.num (-100), FP.num (-100)],
                some [FP.num 100, FP.num 100, FP.num (-100)]),
            (3, none, none), (3, none, none)] := by
  norm_num [singlePointMesh, triMesh, triVerts, scaleOf, centerOf, computeBounds,
    boundsStep, initBounds, FP.fmin, FP.fmax, FP.fle, FP.isNan, FP.fadd, FP.fneg, FP.fsub,
    FP.fmul, FP.fdiv, normalizeVerts, normalizePos, step_to_triangle_buf, collectTrisA,
    corners, vertFloatsB, vertFloatsA, toF32, meshVerticesA, verticesFromFloats,
    bounding_coords, bcStep, f32Max, f32Min, buildRoot, Root.empty, Root.pushBuffer,
    Root.pushBufferView, Root.pushAccessor, Root.pushMesh, Root.pushNode, Root.pushScene,
    vertexSize, List.replicate, List.flatten]

/-- Rust `min` never produces NaN when its first argument is not NaN. -/
theorem fmin_isNan_false (a b : FP) (h : a.isNan = false) :
    (fmin a b).isNan = false := by
  unfold fmin
  split_ifs with h1 h2 h3 <;> simp_all

/-- Rust `max` never produces NaN when its first argument is not NaN. -/
theorem fmax_isNan_false (a b : FP) (h : a.isNan = false) :
    (fmax a b).isNan = false := by
  unfold fmax
  split_ifs with h1 h2 h3 <;> simp_all

/-- One `bounding_coords` loop iteration keeps all six running
components NaN-free. -/
theorem bcStep_nanFree (mm : V3 × V3) (p : Vertex)
    (h1 : (mm.1).nanFree = true) (h2 : (mm.2).nanFree = true) :
    ((bcStep mm p).1.nanFree = true ∧ (bcStep mm p).2.nanFree = true) := by
  simp only [V3.nanFree, Bool.and_eq_true, Bool.not_eq_true'] at h1 h2 ⊢
  exact ⟨⟨⟨fmin_isNan_false _ _ h1.1.1, fmin_isNan_false _ _ h1.1.2⟩,
          fmin_isNan_false _ _ h1.2⟩,
         ⟨⟨fmax_isNan_false _ _ h2.1.1, fmax_isNan_false _ _ h2.1.2⟩,
          fmax_isNan_false _ _ h2.2⟩⟩

/-- The `bounding_coords` fold keeps all components NaN-free from any
NaN-free start. -/
theorem bcFold_nanFree :
    ∀ (ps : List Vertex) (acc : V3 × V3),
      (acc.1).nanFree = true → (acc.2).nanFree = true →
      ((ps.foldl bcStep acc).1.nanFree = true ∧
       (ps.foldl bcStep acc).2.nanFree = true)
  | [], _, h1, h2 => ⟨h1, h2⟩
  | p :: ps, acc, h1, h2 => by
    have hs := bcStep_nanFree acc p h1 h2
    simpa [List.foldl_cons] using bcFold_nanFree ps (bcStep acc p) hs.1 hs.2

/-- C4, counterexample: the claim says the fold starts from `+∞`/`-∞`
sentinels and that NaN components propagate into the result.  On a
single record whose position is `(NaN, 1, 2)` the x components of the
computed min and max are the finite sentinels `f32::MAX` and `f32::MIN`
— not NaN, and not infinities — and on the empty list the result is the
finite sentinel pair, not `(+∞, -∞)`. -/
theorem c4_nan_filtered_counterexample :
    bounding_coords [nanRecord] =
      (⟨f32Max, FP.num 1, FP.num 2⟩, ⟨f32Min, FP.num 1, FP.num 2⟩) ∧
    f32Max ≠ FP.inf ∧ f32Max ≠ FP.nan ∧ f32Min ≠ FP.negInf ∧ f32Min ≠ FP.nan ∧
    bounding_coords [] =
      (⟨f32Max, f32Max, f32Max⟩, ⟨f32Min, f32Min, f32Min⟩) := by
  refine ⟨?_, by decide, by decide, by decide, by decide, rfl⟩
  norm_num [bounding_coords, bcStep, nanRecord, FP.fmin, FP.fmax, FP.fle, FP.isNan,
    f32Max, f32Min]

/-- C4, amended: the bounds fold starts from the finite sentinels
`f32::MAX` / `f32::MIN` on each axis (the empty fold returns exactly
those), and NaN inputs are filtered out by Rust's `f32::min`/`f32::max`
— no component of the computed min/max is ever NaN, whatever the
points. -/
theorem c4_bounds_sentinels_and_nan_filtering :
    bounding_coords [] =
      (⟨f32Max, f32Max, f32Max⟩, ⟨f32Min, f32Min, f32Min⟩) ∧
    ∀ points : List Vertex,
      (bounding_coords points).1.nanFree = true ∧
      (bounding_coords points).2.nanFree = true := by
  refine ⟨rfl, fun points => ?_⟩
  exact bcFold_nanFree points _ rfl rfl

/-- One packed record occupies 36 bytes under a 4-byte float encoding. -/
theorem vertexBytes_length (enc : FP → List UInt8)
    (henc : ∀ x, (enc x).length = 4) (v : Vertex) :
    (vertexBytes enc v).length = 36 := by
  simp [vertexBytes, vertexFloats, henc]

/-- The concatenated record bytes have length `36 * count` under a
4-byte float encoding. -/
theorem recordsBytes_length (enc : FP → List UInt8)
    (henc : ∀ x, (enc x).length = 4) :
    ∀ tv : List Vertex, ((tv.map (vertexBytes enc)).flatten).length = tv.length * 36
  | [] => by simp
  | v :: tv => by
    simp [recordsBytes_length enc henc tv, vertexBytes_length enc henc v]
    ring

/-- Since the record bytes already have length `36 * count`, a multiple
of four, the `to_padded_byte_vector` padding loop adds nothing: the
payload is the byte-exact concatenation of the records. -/
theorem to_padded_byte_vector_eq_concat (enc : FP → List UInt8)
    (henc : ∀ x, (enc x).length = 4) (tv : List Vertex) :
    to_padded_byte_vector enc tv = (tv.map (vertexBytes enc)).flatten := by
  have h := recordsBytes_length enc henc tv
  have hz : ((tv.map (vertexBytes enc)).flatten).length % 4 = 0 := by omega
  simp only [to_padded_byte_vector]
  rw [hz]
  simp

/-- C5: for every exported GLB the binary payload is the byte-exact
concatenation of the packed records in stream order, `36 * vertexCount`
bytes long, and the JSON root holds exactly one buffer (byteLength =
payload length, no URI), one buffer view of stride 36, three `VEC3`
`f32` accessors sharing it (POSITION at offset 0 with min/max, COLOR_0
at offset 12, NORMAL at offset 24, each with count = vertexCount), one
mesh with a single TRIANGLES primitive without indices, one node and
one scene; the export emits exactly this root and payload. -/
theorem c5_glb_document_structure
    (serialize : Root → List UInt8) (enc : FP → List UInt8) (m : Mesh) (tv : List Vertex)
    (henc : ∀ x, (enc x).length = 4)
    (hm : meshVerticesA m = some tv)
    (hsize : align_to_multiple_of_four
        (serialize (buildRoot tv (bounding_coords tv).1 (bounding_coords tv).2)).length
        + tv.length * vertexSize ≤ u32Max) :
    to_padded_byte_vector enc tv = (tv.map (vertexBytes enc)).flatten ∧
    (to_padded_byte_vector enc tv).length = tv.length * 36 ∧
    (buildRoot tv (bounding_coords tv).1 (bounding_coords tv).2).buffers =
      [⟨tv.length * 36, none⟩] ∧
    (buildRoot tv (bounding_coords tv).1 (bounding_coords tv).2).bufferViews =
      [⟨0, tv.length * 36, none, some 36, some .arrayBuffer⟩] ∧
    (buildRoot tv (bounding_coords tv).1 (bounding_coords tv).2).accessors =
      [⟨some 0, some 0, tv.length, .f32, .vec3,
        some [(bounding_coords tv).1.x, (bounding_coords tv).1.y, (bounding_coords tv).1.z],
        some [(bounding_coords tv).2.x, (bounding_coords tv).2.y, (bounding_coords tv).2.z],
        false⟩,
       ⟨some 0, some 12, tv.length, .f32, .vec3, none, none, false⟩,
       ⟨some 0, some 24, tv.length, .f32, .vec3, none, none, false⟩] ∧
    (buildRoot tv (bounding_coords tv).1 (bounding_coords tv).2).meshes =
      [⟨[⟨[(.positions, 0), (.colors 0, 1), (.normals, 2)], none, none, .triangles⟩]⟩] ∧
    (buildRoot tv (bounding_coords tv).1 (bounding_coords tv).2).nodes = [⟨some 0⟩] ∧
    (buildRoot tv (bounding_coords tv).1 (bounding_coords tv).2).scenes = [⟨[0]⟩] ∧
    step_to_gltf serialize enc m =
      some (.ok (glbWrite
        (serialize (buildRoot tv (bounding_coords tv).1 (bounding_coords tv).2))
        (to_padded_byte_vector enc tv))) := by
  have hpad := to_padded_byte_vector_eq_concat enc henc tv
  refine ⟨hpad, ?_, ?_, ?_, ?_, ?_, ?_, ?_, ?_⟩
  · rw [hpad, recordsBytes_length enc henc tv]
  · simp [buildRoot, Root.empty, Root.pushBuffer, Root.pushBufferView, Root.pushAccessor,
      Root.pushMesh, Root.pushNode, Root.pushScene, vertexSize]
  · simp [buildRoot, Root.empty, Root.pushBuffer, Root.pushBufferView, Root.pushAccessor,
      Root.pushMesh, Root.pushNode, Root.pushScene, vertexSize]
  · simp [buildRoot, Root.empty, Root.pushBuffer, Root.pushBufferView, Root.pushAccessor,
      Root.pushMesh, Root.pushNode, Root.pushScene, vertexSize]
  · simp [buildRoot, Root.empty, Root.pushBuffer, Root.pushBufferView, Root.pushAccessor,
      Root.pushMesh, Root.pushNode, Root.pushScene, vertexSize]
  · simp [buildRoot, Root.empty, Root.pushBuffer, Root.pushBufferView, Root.pushAccessor,
      Root.pushMesh, Root.pushNode, Root.pushScene, vertexSize]
  · simp [buildRoot, Root.empty, Root.pushBuffer, Root.pushBufferView, Root.pushAccessor,
      Root.pushMesh, Root.pushNode, Root.pushScene, vertexSize]
  · simp only [step_to_gltf, hm]
    rw [if_neg (Nat.not_lt.mpr hsize)]

/-- Witness for C5 at the empty mesh with the trivial serializer and a
constant 4-byte float encoding. -/
theorem c5_witness :
    (∀ x, (enc0 x).length = 4) ∧
    meshVerticesA emptyMesh = some [] ∧
    (align_to_multiple_of_four
        (serialize0 (buildRoot [] (bounding_coords []).1 (bounding_coords []).2)).length
        + List.length ([] : List Vertex) * vertexSize ≤ u32Max) ∧
    (to_padded_byte_vector enc0 [] =
        (List.map (vertexBytes enc0) []).flatten ∧
      (to_padded_byte_vector enc0 []).length = List.length ([] : List Vertex) * 36 ∧
      (buildRoot [] (bounding_coords []).1 (bounding_coords []).2).buffers =
        [⟨List.length ([] : List Vertex) * 36, none⟩] ∧
      (buildRoot [] (bounding_coords []).1 (bounding_coords []).2).bufferViews =
        [⟨0, List.length ([] : List Vertex) * 36, none, some 36, some .arrayBuffer⟩] ∧
      (buildRoot [] (bounding_coords []).1 (bounding_coords []).2).accessors =
        [⟨some 0, some 0, List.length ([] : List Vertex), .f32, .vec3,
          some [(bounding_coords []).1.x, (bounding_coords []).1.y, (bounding_coords []).1.z],
          some [(bounding_coords []).2.x, (bounding_coords []).2.y, (bounding_coords []).2.z],
          false⟩,
         ⟨some 0, some 12, List.length ([] : List Vertex), .f32, .vec3, none, none, false⟩,
         ⟨some 0, some 24, List.length ([] : List Vertex), .f32, .vec3, none, none, false⟩] ∧
      (buildRoot [] (bounding_coords []).1 (bounding_coords []).2).meshes =
        [⟨[⟨[(.positions, 0), (.colors 0, 1), (.normals, 2)], none, none, .triangles⟩]⟩] ∧
      (buildRoot [] (bounding_coords []).1 (bounding_coords []).2).nodes = [⟨some 0⟩] ∧
      (buildRoot [] (bounding_coords []).1 (bounding_coords []).2).scenes = [⟨[0]⟩] ∧
      step_to_gltf serialize0 enc0 emptyMesh =
        some (.ok (glbWrite
          (serialize0 (buildRoot [] (bounding_coords []).1 (bounding_coords []).2))
          (to_padded_byte_vector enc0 [])))) :=
  ⟨fun _ => rfl, rfl, by decide,
   c5_glb_document_structure serialize0 enc0 emptyMesh [] (fun _ => rfl) rfl (by decide)⟩

/-- Rounding up to a multiple of four never shrinks. -/
theorem align_to_multiple_of_four_ge (n : Nat) : n ≤ align_to_multiple_of_four n := by
  unfold align_to_multiple_of_four
  omega

/-- The rounded-up length is a multiple of four. -/
theorem align_to_multiple_of_four_mod (n : Nat) :
    align_to_multiple_of_four n % 4 = 0 := by
  unfold align_to_multiple_of_four
  omega

/-- Padding a list up to its aligned length yields exactly the aligned
length. -/
theorem padded_length (l : List UInt8) (c : UInt8) :
    (l ++ List.replicate (align_to_multiple_of_four l.length - l.length) c).length =
      align_to_multiple_of_four l.length := by
  have := align_to_multiple_of_four_ge l.length
  simp
  omega

/-- C6: every emitted GLB byte sequence consists of the 12-byte header
whose totalLength field is `12 + 8 + paddedJsonLen + 8 + paddedBinLen`,
then the JSON chunk header followed by the JSON text with actual ASCII
space bytes (0x20) appended up to a multiple of four, then the BIN
chunk header followed by the payload zero-padded to a multiple of four;
the byte lengths of both padded chunks are multiples of four and the
whole sequence has the advertised total length. -/
theorem c6_chunk_padding_and_header (jsonBytes bin : List UInt8) :
    glbWrite jsonBytes bin =
      [0x67, 0x6C, 0x54, 0x46] ++ u32le 2 ++
      u32le (12 + 8 + (jsonBytes ++ List.replicate
              (align_to_multiple_of_four jsonBytes.length - jsonBytes.length) 0x20).length +
             8 + (bin ++ List.replicate
              (align_to_multiple_of_four bin.length - bin.length) 0x00).length) ++
      u32le (jsonBytes ++ List.replicate
              (align_to_multiple_of_four jsonBytes.length - jsonBytes.length) 0x20).length ++
      [0x4A, 0x53, 0x4F, 0x4E] ++
      (jsonBytes ++ List.replicate
        (align_to_multiple_of_four jsonBytes.length - jsonBytes.length) 0x20) ++
      u32le (bin ++ List.replicate
              (align_to_multiple_of_four bin.length - bin.length) 0x00).length ++
      [0x42, 0x49, 0x4E, 0x00] ++
      (bin ++ List.replicate
        (align_to_multiple_of_four bin.length - bin.length) 0x00) ∧
    (jsonBytes ++ List.replicate
      (align_to_multiple_of_four jsonBytes.length - jsonBytes.length) 0x20).length % 4 = 0 ∧
    (bin ++ List.replicate
      (align_to_multiple_of_four bin.length - bin.length) 0x00).length % 4 = 0 ∧
    (glbWrite jsonBytes bin).length =
      12 + 8 + align_to_multiple_of_four jsonBytes.length +
      8 + align_to_multiple_of_four bin.length := by
  have hj := padded_length jsonBytes 0x20
  have hb := padded_length bin 0x00
  refine ⟨?_, ?_, ?_, ?_⟩
  · rw [hj, hb]
    simp [glbWrite, List.append_assoc]
  · rw [hj]
    exact align_to_multiple_of_four_mod _
  · rw [hb]
    exact align_to_multiple_of_four_mod _
  · have hj4 := align_to_multiple_of_four_ge jsonBytes.length
    have hb4 := align_to_multiple_of_four_ge bin.length
    simp [glbWrite, u32le]
    omega

/-- Raw-export corner records have nine floats each. -/
theorem vertFloatsB_length (v : MVertex) : (vertFloatsB v).length = 9 := rfl

/-- The two corner streams over the same vertex list succeed together,
produce three records (27 floats) per triangle, and the raw Order-B
stream is exactly the Order-A records re-read as position, normal,
color. -/
theorem corners_parallel (vs : List MVertex) (ts : List Triangle) :
    ∀ (outB outA : List FP),
      corners vertFloatsB vs ts = some outB →
      corners vertFloatsA vs ts = some outA →
      (verticesFromFloats outA).length = 3 * ts.length ∧
      outB.length = 27 * ts.length ∧
      outB = ((verticesFromFloats outA).map recordFloatsB).flatten := by
  induction ts with
  | nil =>
    intro outB outA hB hA
    simp only [corners, Option.some.injEq] at hB hA
    subst hB
    subst hA
    simp [verticesFromFloats]
  | cons t ts ih =>
    intro outB outA hB hA
    cases hva : vs[t.a]? with
    | none => simp [corners, hva] at hB
    | some va =>
      cases hvb : vs[t.b]? with
      | none => simp [corners, hva, hvb] at hB
      | some vb =>
        cases hvc : vs[t.c]? with
        | none => simp [corners, hva, hvb, hvc] at hB
        | some vc =>
          cases hrB : corners vertFloatsB vs ts with
          | none => simp [corners, hva, hvb, hvc, hrB] at hB
          | some restB =>
            cases hrA : corners vertFloatsA vs ts with
            | none => simp [corners, hva, hvb, hvc, hrA] at hA
            | some restA =>
              simp only [corners, hva, hvb, hvc, hrB, hrA,
                Option.some.injEq] at hB hA
              subst hB
              subst hA
              obtain ⟨ih1, ih2, ih3⟩ := ih restB restA hrB hrA
              have hsplit :
                  verticesFromFloats
                    (vertFloatsA va ++ vertFloatsA vb ++ vertFloatsA vc ++ restA) =
                    ⟨va.pos, va.color, va.norm⟩ :: ⟨vb.pos, vb.color, vb.norm⟩ ::
                    ⟨vc.pos, vc.color, vc.norm⟩ :: verticesFromFloats restA := rfl
              refine ⟨?_, ?_, ?_⟩
              · rw [hsplit]
                simp [ih1]
                ring
              · simp [vertFloatsB_length, ih2]
                ring
              · rw [hsplit]
                simp only [List.map_cons, List.flatten_cons]
                rw [← ih3]
                simp [recordFloatsB, vertFloatsB, toF32]

/-- C7: both export paths produce exactly `3 × triangleCount` packed
records — the raw export `9 × 3 × triangleCount` floats — and the raw
stream reads each record as position, normal, color (Order B) while the
GLB records store position, color, normal (Order A): the raw output is
the Order-A record list re-serialized through `recordFloatsB`. -/
theorem c7_record_counts_and_orders (m : Mesh) (out : List FP) (tv : List Vertex)
    (hraw : step_to_triangle_buf m = some out)
    (hglb : meshVerticesA m = some tv) :
    tv.length = 3 * m.triangles.length ∧
    out.length = 9 * (3 * m.triangles.length) ∧
    out = (tv.map recordFloatsB).flatten := by
  unfold step_to_triangle_buf at hraw
  unfold meshVerticesA collectTrisA at hglb
  cases hA : corners vertFloatsA (normalizeVerts m.verts) m.triangles with
  | none => rw [hA] at hglb; simp [Option.map] at hglb
  | some outA =>
    rw [hA] at hglb
    simp only [Option.map, Option.some.injEq] at hglb
    subst hglb
    obtain ⟨h1, h2, h3⟩ :=
      corners_parallel (normalizeVerts m.verts) m.triangles out outA hraw hA
    exact ⟨h1, by omega, h3⟩

/-- Witness for C7 at the scenario triangle mesh. -/
theorem c7_witness :
    ([⟨⟨FP.num (-100), FP.num (-100), FP.num (-100)⟩,
       ⟨FP.num 1, FP.num 0, FP.num 0⟩, ⟨FP.num 0, FP.num 0, FP.num 1⟩⟩,
      ⟨⟨FP.num 100, FP.num (-100), FP.num (-100)⟩,
       ⟨FP.num 1, FP.num 0, FP.num 0⟩, ⟨FP.num 0, FP.num 0, FP.num 1⟩⟩,
      (⟨⟨FP.num (-100), FP.num 100, FP.num (-100)⟩,
       ⟨FP.num 1, FP.num 0, FP.num 0⟩, ⟨FP.num 0, FP.num 0, FP.num 1⟩⟩ : Vertex)] :
        List Vertex).length = 3 * triMesh.triangles.length ∧
    ([FP.num (-100), FP.num (-100), FP.num (-100),
      FP.num 0, FP.num 0, FP.num 1, FP.num 1, FP.num 0, FP.num 0,
      FP.num 100, FP.num (-100), FP.num (-100),
      FP.num 0, FP.num 0, FP.num 1, FP.num 1, FP.num 0, FP.num 0,
      FP.num (-100), FP.num 100, FP.num (-100),
      FP.num 0, FP.num 0, FP.num 1, FP.num 1, FP.num 0, FP.num 0] :
        List FP).length = 9 * (3 * triMesh.triangles.length) ∧
    ([FP.num (-100), FP.num (-100), FP.num (-100),
      FP.num 0, FP.num 0, FP.num 1, FP.num 1, FP.num 0, FP.num 0,
      FP.num 100, FP.num (-100), FP.num (-100),
      FP.num 0, FP.num 0, FP.num 1, FP.num 1, FP.num 0, FP.num 0,
      FP.num (-100), FP.num 100, FP.num (-100),
      FP.num 0, FP.num 0, FP.num 1, FP.num 1, FP.num 0, FP.num 0] : List FP) =
      (([⟨⟨FP.num (-100), FP.num (-100), FP.num (-100)⟩,
          ⟨FP.num 1, FP.num 0, FP.num 0⟩, ⟨FP.num 0, FP.num 0, FP.num 1⟩⟩,
         ⟨⟨FP.num 100, FP.num (-100), FP.num (-100)⟩,
          ⟨FP.num 1, FP.num 0, FP.num 0⟩, ⟨FP.num 0, FP.num 0, FP.num 1⟩⟩,
         (⟨⟨FP.num (-100), FP.num 100, FP.num (-100)⟩,
          ⟨FP.num 1, FP.num 0, FP.num 0⟩, ⟨FP.num 0, FP.num 0, FP.num 1⟩⟩ : Vertex)] :
           List Vertex).map recordFloatsB).flatten :=
  c7_record_counts_and_orders triMesh _ _
    (by norm_num [triMesh, triVerts, scaleOf, centerOf, computeBounds,
      boundsStep, initBounds, FP.fmin, FP.fmax, FP.fle, FP.isNan, FP.fadd, FP.fneg, FP.fsub,
      FP.fmul, FP.fdiv, normalizeVerts, normalizePos, step_to_triangle_buf,
      corners, vertFloatsB, toF32])
    (by norm_num [triMesh, triVerts, scaleOf, centerOf, computeBounds,
      boundsStep, initBounds, FP.fmin, FP.fmax, FP.fle, FP.isNan, FP.fadd, FP.fneg, FP.fsub,
      FP.fmul, FP.fdiv, normalizeVerts, normalizePos, collectTrisA, meshVerticesA,
      corners, vertFloatsA, toF32, verticesFromFloats])

/-- C8, amended: the export fails with the size-limit error exactly when
`paddedJsonLength + binPayloadLength` — the quantity the source checks
at lines 305-307, which omits the 12-byte GLB header and the two 8-byte
chunk headers — exceeds `2^32 - 1`; the error branch carries no output
bytes. -/
theorem c8_size_check_threshold
    (serialize : Root → List UInt8) (enc : FP → List UInt8) (m : Mesh) (tv : List Vertex)
    (hm : meshVerticesA m = some tv) :
    (step_to_gltf serialize enc m = some (.error .sizeLimit) ↔
      u32Max < align_to_multiple_of_four
          (serialize (buildRoot tv (bounding_coords tv).1 (bounding_coords tv).2)).length
        + tv.length * vertexSize) := by
  simp only [step_to_gltf, hm]
  by_cases hc : u32Max < align_to_multiple_of_four
      (serialize (buildRoot tv (bounding_coords tv).1 (bounding_coords tv).2)).length
      + tv.length * vertexSize
  · simp [hc]
  · simp [hc]

/-- Witness for the amended C8 at the empty mesh. -/
theorem c8_witness :
    meshVerticesA emptyMesh = some [] ∧
    (step_to_gltf serialize0 enc0 emptyMesh = some (.error .sizeLimit) ↔
      u32Max < align_to_multiple_of_four
          (serialize0 (buildRoot ([] : List Vertex)
            (bounding_coords []).1 (bounding_coords []).2)).length
        + List.length ([] : List Vertex) * vertexSize) :=
  ⟨rfl, c8_size_check_threshold serialize0 enc0 emptyMesh [] rfl⟩

/-- The big serializer's output length is `2^32 - 28` bytes. -/
theorem serializeBig_length (r : Root) : (serializeBig r).length = 2 ^ 32 - 28 :=
  List.length_replicate _ _

/-- C8, counterexample: the claim ties the error to the GLB totalLength
`12 + 8 + paddedJsonLen + 8 + paddedBinLen` exceeding `2^32 - 1`.  With
a serialized JSON of `2^32 - 28` bytes (the output of `serializeBig`)
and no vertices, the totalLength is `2^32`, beyond the `u32` range, yet
the export succeeds and emits a GLB: the source's check omits the 28
header and chunk-header bytes. -/
theorem c8_size_limit_gap_counterexample :
    step_to_gltf serializeBig enc0 emptyMesh =
      some (.ok (glbWrite (serializeBig (buildRoot ([] : List Vertex)
        (bounding_coords []).1 (bounding_coords []).2)) [])) ∧
    u32Max <
      12 + 8 + align_to_multiple_of_four
        (serializeBig (buildRoot ([] : List Vertex)
          (bounding_coords []).1 (bounding_coords []).2)).length +
      8 + align_to_multiple_of_four ([] : List UInt8).length := by
  constructor
  · have hm : meshVerticesA emptyMesh = some ([] : List Vertex) := rfl
    simp only [step_to_gltf, hm]
    have hcond : ¬ (u32Max < align_to_multiple_of_four
        (serializeBig (buildRoot ([] : List Vertex)
          (bounding_coords []).1 (bounding_coords []).2)).length
        + List.length ([] : List Vertex) * vertexSize) := by
      rw [serializeBig_length]
      norm_num [u32Max, align_to_multiple_of_four, vertexSize]
    rw [if_neg hcond]
    have hpad : to_padded_byte_vector enc0 [] = [] := rfl
    rw [hpad]
  · rw [serializeBig_length]
    norm_num [u32Max, align_to_multiple_of_four]

/-- C9: both exports are pure functions of their input: identical input
meshes (with the same external serializer and float encoding) give
identical outputs. -/
theorem c9_deterministic (serialize : Root → List UInt8) (enc : FP → List UInt8)
    (m m' : Mesh) (h : m = m') :
    step_to_triangle_buf m = step_to_triangle_buf m' ∧
    step_to_gltf serialize enc m = step_to_gltf serialize enc m' := by
  subst h
  exact ⟨rfl, rfl⟩

/-- Witness for C9 at the scenario triangle mesh. -/
theorem c9_witness :
    triMesh = triMesh ∧
    (step_to_triangle_buf triMesh = step_to_triangle_buf triMesh ∧
     step_to_gltf serialize0 enc0 triMesh = step_to_gltf serialize0 enc0 triMesh) :=
  ⟨rfl, c9_deterministic serialize0 enc0 triMesh triMesh rfl⟩

/-- C10: a mesh with an empty triangle list raises no error: the raw
export returns the empty float vector, and the GLB export succeeds
(whenever the serialized JSON itself fits the `u32` check) with zero
records — accessors of count 0, buffer byteLength 0, and POSITION
min/max equal to the unfolded `f32::MAX` / `f32::MIN` sentinels. -/
theorem c10_empty_triangle_list (serialize : Root → List UInt8) (enc : FP → List UInt8)
    (m : Mesh) (htri : m.triangles = [])
    (hsize : align_to_multiple_of_four
        (serialize (buildRoot ([] : List Vertex)
          (bounding_coords []).1 (bounding_coords []).2)).length ≤ u32Max) :
    step_to_triangle_buf m = some [] ∧
    meshVerticesA m = some [] ∧
    (buildRoot ([] : List Vertex) (bounding_coords []).1 (bounding_coords []).2).buffers =
      [⟨0, none⟩] ∧
    (buildRoot ([] : List Vertex) (bounding_coords []).1 (bounding_coords []).2).accessors =
      [⟨some 0, some 0, 0, .f32, .vec3, some [f32Max, f32Max, f32Max],
        some [f32Min, f32Min, f32Min], false⟩,
       ⟨some 0, some 12, 0, .f32, .vec3, none, none, false⟩,
       ⟨some 0, some 24, 0, .f32, .vec3, none, none, false⟩] ∧
    step_to_gltf serialize enc m =
      some (.ok (glbWrite
        (serialize (buildRoot ([] : List Vertex)
          (bounding_coords []).1 (bounding_coords []).2)) [])) := by
  have hm : meshVerticesA m = some ([] : List Vertex) := by
    unfold meshVerticesA collectTrisA
    rw [htri]
    rfl
  refine ⟨?_, hm, rfl, rfl, ?_⟩
  · unfold step_to_triangle_buf
    rw [htri]
    rfl
  · simp only [step_to_gltf, hm]
    have hcond : ¬ (u32Max < align_to_multiple_of_four
        (serialize (buildRoot ([] : List Vertex)
          (bounding_coords []).1 (bounding_coords []).2)).length
        + List.length ([] : List Vertex) * vertexSize) := by
      simpa using hsize
    rw [if_neg hcond]
    simp [to_padded_byte_vector]

/-- Witness for C10 at a mesh with vertices but no triangles. -/
theorem c10_witness :
    trisEmptyMesh.triangles = [] ∧
    align_to_multiple_of_four
      (serialize0 (buildRoot ([] : List Vertex)
        (bounding_coords []).1 (bounding_coords []).2)).length ≤ u32Max ∧
    (step_to_triangle_buf trisEmptyMesh = some [] ∧
     meshVerticesA trisEmptyMesh = some [] ∧
     (buildRoot ([] : List Vertex) (bounding_coords []).1 (bounding_coords []).2).buffers =
       [⟨0, none⟩] ∧
     (buildRoot ([] : List Vertex) (bounding_coords []).1 (bounding_coords []).2).accessors =
       [⟨some 0, some 0, 0, .f32, .vec3, some [f32Max, f32Max, f32Max],
         some [f32Min, f32Min, f32Min], false⟩,
        ⟨some 0, some 12, 0, .f32, .vec3, none, none, false⟩,
        ⟨some 0, some 24, 0, .f32, .vec3, none, none, false⟩] ∧
     step_to_gltf serialize0 enc0 trisEmptyMesh =
       some (.ok (glbWrite
         (serialize0 (buildRoot ([] : List Vertex)
           (bounding_coords []).1 (bounding_coords []).2)) []))) :=
  ⟨rfl, by decide,
   c10_empty_triangle_list serialize0 enc0 trisEmptyMesh rfl (by decide)⟩

end StepToGltf
